import Mathlib

/-!
Shallow embedding of `src/curvefit/forecaster.py` (classes `ResidualModel`,
`LinearResidualModel`, `Forecaster`).

Modelling conventions:
* A pandas `DataFrame` with `m` rows is a `DataFrame m`: a list of column
  names together with a total valuation `Fin m → String → ℚ`.  Machine floats
  are embedded as exact rationals.  Column lookup is total (pandas raises
  `KeyError` on a missing column; the claims below only read columns that are
  present, and presence is tracked through the `cols` field).
* Column assignment `df[c] = v` is `DataFrame.setColVec` / `DataFrame.setCol`:
  it overwrites the values and appends the column name at the end when absent,
  exactly like pandas.
* `np.linalg.inv` raises `LinAlgError("Singular matrix")` exactly when the
  matrix is singular; in exact arithmetic this is `det = 0`, and the inverse is
  `det⁻¹ • adjugate`.
* Exceptions are `Except String`; a method that mutates `self` returns the
  post-state explicitly.
-/

namespace CurveFit

open Matrix

/-- A pandas data frame with `m` rows: ordered column names plus a valuation. -/
structure DataFrame (m : ℕ) where
  cols : List String
  val : Fin m → String → ℚ

namespace DataFrame

variable {m : ℕ}

/-- Number of rows of the frame (`len(df)`). -/
def nrows (_ : DataFrame m) : ℕ := m

/-- Column assignment `df[c] = v` for a whole column of values: overwrites values of column `c`,
appending the name at the end of the column list when it is new (pandas
semantics of column assignment). -/
def setColVec (df : DataFrame m) (c : String) (v : Fin m → ℚ) : DataFrame m where
  cols := if c ∈ df.cols then df.cols else df.cols ++ [c]
  val := fun i c' => if c' = c then v i else df.val i c'

/-- Scalar column assignment `df[c] = x` broadcast (e.g. `df['intercept'] = 1`). -/
def setCol (df : DataFrame m) (c : String) (x : ℚ) : DataFrame m :=
  df.setColVec c (fun _ => x)

/-- Selection `np.asarray(df[sel])`: the `m × len(sel)` matrix of the selected columns,
in the selection order. -/
def select (df : DataFrame m) (sel : List String) :
    Matrix (Fin m) (Fin sel.length) ℚ :=
  Matrix.of fun i j => df.val i (sel.get j)

end DataFrame

/-- Class `LinearResidualModel` (which also carries the `ResidualModel` base-class
fields `data`, `outcome`, `covariates`, and the `coef` slot initialised to
`None` by `__init__`). -/
structure LinearResidualModel (m : ℕ) where
  data : DataFrame m
  outcome : String
  covariates : List String
  coef : Option (Fin (covariates.length + 1) → ℚ)

namespace LinearResidualModel

variable {m n : ℕ}

/-- The design matrix built inside `fit`: `df = data.copy()`,
`df['intercept'] = 1`, `pred = np.asarray(df[['intercept'] + covariates])`. -/
def pred (M : LinearResidualModel m) :
    Matrix (Fin m) (Fin (M.covariates.length + 1)) ℚ :=
  (M.data.setCol "intercept" 1).select ("intercept" :: M.covariates)

/-- The outcome vector built inside `fit`: `out = np.asarray(df[[outcome]])`
(a single column, embedded as a vector). -/
def outVec (M : LinearResidualModel m) : Fin m → ℚ :=
  fun i => (M.data.setCol "intercept" 1).val i M.outcome

/-- The Gram matrix `pred.T.dot(pred)` of the normal equations. -/
def gram (M : LinearResidualModel m) :
    Matrix (Fin (M.covariates.length + 1)) (Fin (M.covariates.length + 1)) ℚ :=
  M.predᵀ * M.pred

/-- Method `LinearResidualModel.fit`:
`self.coef = np.linalg.inv(pred.T.dot(pred)).dot(pred.T).dot(out)`.
`np.linalg.inv` raises `LinAlgError("Singular matrix")` exactly when
`pred.T.dot(pred)` is singular; otherwise the inverse is
`det⁻¹ • adjugate`. -/
def fit (M : LinearResidualModel m) :
    Except String (Fin (M.covariates.length + 1) → ℚ) :=
  if M.gram.det = 0 then Except.error "Singular matrix"
  else Except.ok (M.gram.det⁻¹ • (M.gram.adjugate *ᵥ (M.predᵀ *ᵥ M.outVec)))

/-- The in-place effect of `fit` on the model object: on success `self.coef`
is set; when `np.linalg.inv` raises, the exception propagates and `self.coef`
keeps its previous value. -/
def fitModel (M : LinearResidualModel m) : LinearResidualModel m × Option String :=
  match M.fit with
  | Except.ok c => ({ M with coef := some c }, none)
  | Except.error e => (M, some e)

/-- Method `LinearResidualModel.predict(df)`: first mutates the CALLER's frame in
place (`df['intercept'] = 1`), then returns
`np.asarray(df[['intercept'] + covariates]).dot(self.coef)`.
The first component is the post-call state of the argument frame; the second
is the returned vector (`predict` before `fit` dereferences `self.coef = None`
and fails). -/
def predict (M : LinearResidualModel m) (df : DataFrame n) :
    DataFrame n × Except String (Fin n → ℚ) :=
  let df' := df.setCol "intercept" 1
  (df',
    match M.coef with
    | none => Except.error "coef is None"
    | some c => Except.ok (df'.select ("intercept" :: M.covariates) *ᵥ c))

end LinearResidualModel

/-- Constructor `Forecaster.__init__`: both residual-model slots start as `None`.
`m` is the number of rows of the residual training frame. -/
structure Forecaster (m : ℕ) where
  mean_residual_model : Option (LinearResidualModel m)
  std_residual_model : Option (LinearResidualModel m)

namespace Forecaster

variable {m : ℕ}

/-- Method `Forecaster.fit_residuals`: for `residual_model_type == 'linear'` it
constructs and stores both `LinearResidualModel`s and then fits them in order
(mean first); any other type raises
`ValueError(f"Unknown residual model type {residual_model_type}.")` before any
model object is constructed, leaving both slots as they were.  Returns the
post-state of the forecaster and the raised error, if any. -/
def fit_residuals (f : Forecaster m) (residual_data : DataFrame m)
    (mean_col std_col : String) (residual_covariates : List String)
    (residual_model_type : String) : Forecaster m × Option String :=
  if residual_model_type = "linear" then
    let mm0 : LinearResidualModel m :=
      ⟨residual_data, mean_col, residual_covariates, none⟩
    let sm0 : LinearResidualModel m :=
      ⟨residual_data, std_col, residual_covariates, none⟩
    match mm0.fitModel with
    | (mm1, some e) => (⟨some mm1, some sm0⟩, some e)
    | (mm1, none) =>
      match sm0.fitModel with
      | (sm1, some e) => (⟨some mm1, some sm1⟩, some e)
      | (sm1, none) => (⟨some mm1, some sm1⟩, none)
  else
    (f, some ("Unknown residual model type " ++ residual_model_type ++ "."))

end Forecaster

/-- If the row index type `Fin (a * b)` of the product grid is inhabited then
the inner dimension is positive. -/
lemma snd_len_pos {a b : ℕ} (i : Fin (a * b)) : 0 < b := by
  have hprod : 0 < a * b := Nat.lt_of_le_of_lt (Nat.zero_le _) i.isLt
  exact Nat.pos_of_ne_zero fun hz => by simp [hz] at hprod

/-- The grid frame built by `Forecaster.predict` from
`itertools.product(far_out, num_data)` (outer loop over `far_out`, the
first-inserted dict key): row `i` holds `far_out[i / len(num_data)]` and
`num_data[i % len(num_data)]`. -/
def gridFrame (far_out num_data : List ℚ) :
    DataFrame (far_out.length * num_data.length) where
  cols := ["far_out", "num_data"]
  val := fun i c =>
    if c = "far_out" then
      far_out.get ⟨i.val / num_data.length,
        (Nat.div_lt_iff_lt_mul (snd_len_pos i)).mpr i.isLt⟩
    else if c = "num_data" then
      num_data.get ⟨i.val % num_data.length, Nat.mod_lt _ (snd_len_pos i)⟩
    else 0

namespace Forecaster

variable {m : ℕ}

/-- Method `Forecaster.predict(far_out, num_data)`: builds the Cartesian-product grid,
then populates `new_data['residual_mean']` from the mean model and
`new_data['residual_std']` from the std model, threading the in-place
`intercept` mutation performed by each `LinearResidualModel.predict` call.
Accessing a `None` model or predicting before `fit` fails. -/
def predict (f : Forecaster m) (far_out num_data : List ℚ) :
    Except String (DataFrame (far_out.length * num_data.length)) :=
  match f.mean_residual_model, f.std_residual_model with
  | some mm, some sm =>
    let new_data := gridFrame far_out num_data
    let p1 := mm.predict new_data
    match p1.2 with
    | Except.error e => Except.error e
    | Except.ok v1 =>
      let d2 := p1.1.setColVec "residual_mean" v1
      let p2 := sm.predict d2
      match p2.2 with
      | Except.error e => Except.error e
      | Except.ok v2 => Except.ok (p2.1.setColVec "residual_std" v2)
  | _, _ => Except.error "residual model is None"

end Forecaster

/-! ### The `simulate` method and its external collaborators

`Forecaster.simulate` reads the model pipeline's `all_data` frame through the
columns `col_t`, `col_group`, `col_obs` (fit space) and `col_obs_compare`
(comparison space); the two observation columns may hold missing values
(`NaN`, embedded as `Option`). -/

/-- One row of `mp.all_data`, restricted to the columns `simulate` touches.
`obs` and `obs_compare` may be missing (`NaN`). -/
structure ObsRow where
  t : ℚ
  group : String
  obs : Option ℚ
  obs_compare : Option ℚ
  deriving DecidableEq

/-- The external model pipeline, §6 collaborator: per-group historical data
plus the deterministic mean-trajectory forecast
`mp.predict(times, predict_space, predict_group)`, modelled as an oracle
function from the requested times and group to the predicted values. -/
structure ModelPipeline where
  all_data : List ObsRow
  predictFn : List (WithBot ℚ) → String → List ℚ

/-- Line 175: `data = mp.all_data.loc[mp.all_data[mp.col_group] == group]`. -/
def selectGroup (mp : ModelPipeline) (group : String) : List ObsRow :=
  mp.all_data.filter (fun r => r.group == group)

/-- Line 176: `max_t = data[mp.col_t].max()` — the maximum over ALL rows of
the group, with no filtering of rows whose observation is missing (`⊥`, i.e.
`NaN`, when the selection is empty, as in pandas). -/
def codeMaxT (data : List ObsRow) : WithBot ℚ :=
  (data.map (fun r => r.t)).maximum

/-- Modelled from the spec: "determines `max_observed_time` as the maximum
time index among non-missing observations for that group" (§4.3 step 1) —
the maximum time over rows whose comparison-space observation is present.
This is NOT what line 176 of the source computes; it is stated here only to
be compared against `codeMaxT`. -/
def specMaxObservedTime (data : List ObsRow) : WithBot ℚ :=
  ((data.filter (fun r => r.obs_compare.isSome)).map (fun r => r.t)).maximum

/-- Line 177: `num_obs = data.loc[~data[mp.col_obs_compare].isnull()].count()`
— `DataFrame.count()` returns a per-column Series of non-null counts (NOT a
scalar), here listed in the frame's column order for the four modelled
columns. -/
def countSeries (data : List ObsRow) : List (String × ℕ) :=
  let nn := data.filter (fun r => r.obs_compare.isSome)
  [("t", nn.length), ("group", nn.length),
   ("obs", (nn.filter (fun r => r.obs.isSome)).length),
   ("obs_compare", (nn.filter (fun r => r.obs_compare.isSome)).length)]

/-- Line 179: `num_out = np.array(range(far_out)) + 1`, i.e. `1, …, far_out`. -/
def numOut (far_out : ℕ) : List ℚ :=
  (List.range far_out).map (fun k : ℕ => (k : ℚ) + 1)

/-- Line 180: `forecast_times = max_t + num_out` (elementwise; `max_t` is the
scalar of line 176, `⊥` propagating like `NaN` when the selection was empty). -/
def forecastTimes (max_t : WithBot ℚ) (far_out : ℕ) : List (WithBot ℚ) :=
  (numOut far_out).map (fun x : ℚ => max_t + (x : WithBot ℚ))

/-- Line 191: the `num_data` argument of the residual-forecast call is
`np.array([num_obs])` — a single-element sequence whose one element is the
whole per-column count Series of line 177, not a scalar count. -/
def simulateNumData (data : List ObsRow) : List (List (String × ℕ)) :=
  [countSeries data]

/-- Line 194: `std_residual = residuals['residual_std'].apply(lambda x:
max(x, epsilon)).values` — the scale vector actually passed to
`np.random.normal`. -/
def simulateScale {H : ℕ} (std_residual : Fin H → ℚ) (epsilon : ℚ) :
    Fin H → ℚ :=
  fun j => max (std_residual j) epsilon

/-- Line 199: `forecast_data = mean_pred + mean_pred * error`, broadcasting
the length-`far_out` mean forecast across the `num_simulations × far_out`
noise draws. -/
def forecast_data {N H : ℕ} (mean_pred : Fin H → ℚ)
    (error : Fin N → Fin H → ℚ) : Fin N → Fin H → ℚ :=
  fun s j => mean_pred j + mean_pred j * error s j

/-- Lines 200-204: `np.append(observations, forecast_data)` FLATTENS the
`num_simulations × far_out` matrix, so the combined vector has
`len(observations) + num_simulations * far_out` entries, and the flag vector
has the same length. -/
def simulatedFlag (numObservations : ℕ) (flattenedForecastLen : ℕ) : List ℕ :=
  List.replicate numObservations 0 ++ List.replicate flattenedForecastLen 1

/-- Lines 207-209 of the source are
`fit_space_new_observations = data_translator(data=)` — an incomplete call
(the keyword argument has no value), a Python syntax error.  No execution of
`simulate` can get past the space-translation step. -/
def translatorIncomplete : String :=
  "SyntaxError: incomplete call data_translator(data=) at the space-translation step"

namespace Forecaster

variable {m : ℕ}

/-- Method `Forecaster.simulate(mp, far_out, num_simulations, group, epsilon)`.
Lines 175-204 are embedded by the `let` bindings below (via the definitions
above); the Gaussian sampling of lines 196-198 is determinised by the
`sampler` oracle, which receives the same `loc` (predicted residual means) and
`scale` (floored residual stds) vectors as `np.random.normal`, and the
residual-prediction step of lines 189-192 is taken as the `mean_residual` /
`std_residual` oracle inputs (the source feeds `self.predict` the malformed
2-D `num_data` of `simulateNumData`).  Lines 207-209 are an incomplete call to
`data_translator` — a syntax error — so the method unconditionally fails
before assembling any trajectory table. -/
def simulate (_self : Forecaster m) (mp : ModelPipeline) (far_out : ℕ)
    (num_simulations : ℕ) (group : String) (epsilon : ℚ)
    (mean_residual std_residual : Fin far_out → ℚ)
    (sampler : (Fin far_out → ℚ) → (Fin far_out → ℚ) →
      Fin num_simulations → Fin far_out → ℚ) :
    Except String (List ℚ × List (List ℚ)) :=
  let data := selectGroup mp group
  let max_t := codeMaxT data
  let _num_obs := countSeries data
  let num_out := numOut far_out
  let forecast_times := forecastTimes max_t far_out
  let observations := data.map (fun r => r.obs_compare)
  let obs_times := data.map (fun r => r.t)
  let _all_times := (obs_times.map (fun t => (t : WithBot ℚ))) ++ forecast_times
  let _mean_pred := mp.predictFn forecast_times group
  let _num_data_arg := simulateNumData data
  let scale := simulateScale std_residual epsilon
  let error := sampler mean_residual scale
  let fc := forecast_data (fun j => (mp.predictFn forecast_times group).getD j.val 0) error
  let _new_observations_len := observations.length + num_simulations * far_out
  let _simulated_flag := simulatedFlag observations.length (num_simulations * far_out)
  let _ := num_out
  let _ := fc
  Except.error translatorIncomplete

end Forecaster

/-! ### Concrete fixtures used by witnesses and counterexamples -/

/-- An empty residual-training frame (used to build fresh forecasters). -/
def emptyDF : DataFrame 0 := ⟨[], fun i _ => i.elim0⟩

/-- Two-row training frame: rows `(x, y) = (0, 1)` and `(1, 3)`;
the outcome `y = 1 + 2·x` is exactly linear in `x`. -/
def exDF : DataFrame 2 where
  cols := ["x", "y"]
  val := fun i c =>
    if c = "x" then (if i.val = 0 then 0 else 1)
    else if c = "y" then (if i.val = 0 then 1 else 3)
    else 0

/-- A `LinearResidualModel` over `exDF` regressing `y` on `x`, not yet fitted. -/
def exLRM : LinearResidualModel 2 := ⟨exDF, "y", ["x"], none⟩

/-- Group-`A` history with one fully observed row at `t = 3` and one row at
`t = 5` whose observations are BOTH missing. -/
def exMPC6 : ModelPipeline :=
  ⟨[⟨3, "A", some 1, some 2⟩, ⟨5, "A", none, none⟩], fun _ _ => []⟩

/-- A pipeline whose only group is `"A"` (so `"B"` is absent). -/
def exMPC8 : ModelPipeline := ⟨[⟨1, "A", some 1, some 1⟩], fun _ _ => []⟩

/-! ### Claims -/

/-- C4: in `simulate`, the scale actually used for Gaussian sampling is
`effective_std = max(predicted_std, std_floor)` elementwise (`std_floor` is
the `epsilon` argument), so the sampling scale is never below `std_floor`. -/
theorem claim_C4_effective_std_floor {H : ℕ} (std_residual : Fin H → ℚ)
    (epsilon : ℚ) (j : Fin H) :
    simulateScale std_residual epsilon j = max (std_residual j) epsilon ∧
    epsilon ≤ simulateScale std_residual epsilon j :=
  ⟨rfl, le_max_right _ _⟩

/-- C5: each simulated comparison-space value is
`mean_forecast + mean_forecast * noise` (relative, not additive, noise);
hence a zero mean forecast forces a zero simulated value for every noise
sample. -/
theorem claim_C5_multiplicative_noise {N H : ℕ} (mean_pred : Fin H → ℚ)
    (error : Fin N → Fin H → ℚ) (s : Fin N) (j : Fin H) :
    forecast_data mean_pred error s j = mean_pred j + mean_pred j * error s j ∧
    (mean_pred j = 0 → forecast_data mean_pred error s j = 0) :=
  ⟨rfl, fun h => by simp [forecast_data, h]⟩

/-- Witness for C5 at a concrete input: a zero mean forecast with noise
sample `5` still yields a simulated value of `0`. -/
theorem claim_C5_witness :
    forecast_data (fun _ : Fin 1 => (0 : ℚ)) (fun _ _ : Fin 1 => (5 : ℚ)) 0 0 = 0 :=
  (claim_C5_multiplicative_noise (fun _ => 0) (fun _ _ => 5) 0 0).2 rfl

/-- C7: for any `residual_model_type` other than `"linear"`, `fit_residuals`
raises the configuration `ValueError` before any regression object is
constructed, and the forecaster's state is the unchanged pre-state (both
residual-model slots keep their previous values, in particular stay unset). -/
theorem claim_C7_unknown_model_type {m : ℕ} (f : Forecaster m)
    (residual_data : DataFrame m) (mean_col std_col : String)
    (residual_covariates : List String) (residual_model_type : String)
    (h : residual_model_type ≠ "linear") :
    f.fit_residuals residual_data mean_col std_col residual_covariates
        residual_model_type =
      (f, some ("Unknown residual model type " ++ residual_model_type ++ ".")) := by
  simp [Forecaster.fit_residuals, h]

/-- Witness for C7: a fresh forecaster called with
`residual_model_type = "unsupported"` fails and both model slots are still
`none` afterwards. -/
theorem claim_C7_witness :
    (⟨none, none⟩ : Forecaster 0).fit_residuals emptyDF "residual_mean"
        "residual_std" ["far_out"] "unsupported" =
      ((⟨none, none⟩ : Forecaster 0),
        some ("Unknown residual model type " ++ "unsupported" ++ ".")) :=
  claim_C7_unknown_model_type _ _ _ _ _ _ (by decide)

/-- C2 (code bug): `simulate` can never return the claimed list of
`num_simulations` trajectory tables: lines 207-209 of the source are an
incomplete call `data_translator(data=)` — a Python syntax error — so every
call fails there, for all arguments. -/
theorem claim_C2_simulate_never_returns {m : ℕ} (f : Forecaster m)
    (mp : ModelPipeline) (far_out num_simulations : ℕ) (group : String)
    (epsilon : ℚ) (mean_residual std_residual : Fin far_out → ℚ)
    (sampler : (Fin far_out → ℚ) → (Fin far_out → ℚ) →
      Fin num_simulations → Fin far_out → ℚ) :
    f.simulate mp far_out num_simulations group epsilon mean_residual
        std_residual sampler = Except.error translatorIncomplete :=
  rfl

/-- C6 counterexample: `simulate` takes `max_t` over ALL rows of the group
(line 176 has no missing-value filter), not over the non-missing observations
only: on `exMPC6` the code's `max_t` is `5` (from a row with no observation)
while the spec's "maximum time among non-missing observations" is `3`. -/
theorem claim_C6_counterexample :
    codeMaxT (selectGroup exMPC6 "A") = ((5 : ℚ) : WithBot ℚ) ∧
    specMaxObservedTime (selectGroup exMPC6 "A") = ((3 : ℚ) : WithBot ℚ) ∧
    codeMaxT (selectGroup exMPC6 "A") ≠ specMaxObservedTime (selectGroup exMPC6 "A") := by
  refine ⟨by decide, by decide, by decide⟩

/-- C6 (amended): for a group with a non-empty selection, `simulate`'s
`max_t` is the maximum time over ALL selected rows (missing observations
included), `forecast_offsets` is `1..far_out`, `forecast_times` is
`max_t + offset` per offset, and the `num_data` argument passed to the
residual forecaster is the single-element sequence holding the per-column
non-null count Series (not a scalar count). -/
theorem claim_C6_amended (mp : ModelPipeline) (group : String) (far_out : ℕ)
    (hne : selectGroup mp group ≠ []) :
    (∃ mt : ℚ, codeMaxT (selectGroup mp group) = (mt : WithBot ℚ) ∧
      (∀ r ∈ selectGroup mp group, r.t ≤ mt) ∧
      (∃ r ∈ selectGroup mp group, r.t = mt) ∧
      forecastTimes (codeMaxT (selectGroup mp group)) far_out =
        (List.range far_out).map (fun k : ℕ => ((mt + ((k : ℚ) + 1) : ℚ) : WithBot ℚ))) ∧
    (numOut far_out).length = far_out ∧
    (∀ k, k < far_out → (numOut far_out).getD k 0 = (k : ℚ) + 1) ∧
    simulateNumData (selectGroup mp group) = [countSeries (selectGroup mp group)] := by
  have hl : (selectGroup mp group).map (fun r => r.t) ≠ [] := by
    simpa using hne
  obtain ⟨mt, hmt⟩ : ∃ mt : ℚ,
      ((selectGroup mp group).map (fun r => r.t)).maximum = (mt : WithBot ℚ) := by
    cases h : ((selectGroup mp group).map (fun r => r.t)).maximum with
    | bot => exact absurd (List.maximum_eq_bot.mp h) hl
    | coe a => exact ⟨a, rfl⟩
  obtain ⟨hmem, hub⟩ := List.maximum_eq_coe_iff.mp hmt
  refine ⟨⟨mt, hmt, ?_, ?_, ?_⟩, ?_, ?_, rfl⟩
  · intro r hr
    exact hub _ (List.mem_map_of_mem _ hr)
  · obtain ⟨r, hr, hrt⟩ := List.mem_map.mp hmem
    exact ⟨r, hr, hrt⟩
  · rw [codeMaxT, hmt]
    simp only [forecastTimes, numOut, List.map_map]
    refine List.map_congr_left fun k _ => ?_
    simp only [Function.comp_apply]
    exact (WithBot.coe_add mt (_ + 1)).symm
  · simp [numOut]
  · intro k hk
    simp [numOut, List.getD, List.getElem?_map, List.getElem?_range, hk]

/-- Witness for C6 (amended) on the concrete pipeline `exMPC6`, group `"A"`,
horizon `2`. -/
theorem claim_C6_witness :
    (∃ mt : ℚ, codeMaxT (selectGroup exMPC6 "A") = (mt : WithBot ℚ) ∧
      (∀ r ∈ selectGroup exMPC6 "A", r.t ≤ mt) ∧
      (∃ r ∈ selectGroup exMPC6 "A", r.t = mt) ∧
      forecastTimes (codeMaxT (selectGroup exMPC6 "A")) 2 =
        (List.range 2).map (fun k : ℕ => ((mt + ((k : ℚ) + 1) : ℚ) : WithBot ℚ))) ∧
    (numOut 2).length = 2 ∧
    (∀ k, k < 2 → (numOut 2).getD k 0 = (k : ℚ) + 1) ∧
    simulateNumData (selectGroup exMPC6 "A") = [countSeries (selectGroup exMPC6 "A")] :=
  claim_C6_amended exMPC6 "A" 2 (by decide)

/-- C8 counterexample: the group-selection step has no presence check.  For
the absent group `"B"` the selection is empty and `max_t` is `NaN` (`⊥`), and
`simulate` fails with exactly the same unconditional error (the incomplete
`data_translator` call) as for the present group `"A"` — not with a
not-found error. -/
theorem claim_C8_counterexample :
    selectGroup exMPC8 "B" = [] ∧
    codeMaxT (selectGroup exMPC8 "B") = ⊥ ∧
    (⟨none, none⟩ : Forecaster 0).simulate exMPC8 2 3 "B" (1 / 1000)
        (fun _ => 0) (fun _ => 0) (fun _ _ _ _ => 0) =
      Except.error translatorIncomplete ∧
    (⟨none, none⟩ : Forecaster 0).simulate exMPC8 2 3 "A" (1 / 1000)
        (fun _ => 0) (fun _ => 0) (fun _ _ _ _ => 0) =
      Except.error translatorIncomplete :=
  ⟨by decide, by decide, rfl, rfl⟩

/-- C8 (amended): `simulate` performs no group-presence check.  For a group
absent from the source data the selection is silently empty, `max_t` is `NaN`
(`⊥`), and the only failure is the group-independent one at the (syntactically
incomplete) space-translation step — no not-found error is raised. -/
theorem claim_C8_amended (mp : ModelPipeline) (group : String)
    (habsent : ∀ r ∈ mp.all_data, r.group ≠ group) :
    selectGroup mp group = [] ∧
    codeMaxT (selectGroup mp group) = ⊥ ∧
    (∀ {m : ℕ} (f : Forecaster m) (far_out num_simulations : ℕ) (epsilon : ℚ)
      (mean_residual std_residual : Fin far_out → ℚ)
      (sampler : (Fin far_out → ℚ) → (Fin far_out → ℚ) →
        Fin num_simulations → Fin far_out → ℚ),
      f.simulate mp far_out num_simulations group epsilon mean_residual
          std_residual sampler = Except.error translatorIncomplete) := by
  have hsel : selectGroup mp group = [] := by
    refine List.filter_eq_nil_iff.mpr fun r hr => ?_
    simpa using habsent r hr
  exact ⟨hsel, by rw [hsel]; rfl, fun _ _ _ _ _ _ _ => rfl⟩

/-- Witness for C8 (amended) at the concrete pipeline `exMPC8` and the absent
group `"B"`. -/
theorem claim_C8_witness :
    selectGroup exMPC8 "B" = [] ∧
    codeMaxT (selectGroup exMPC8 "B") = ⊥ ∧
    (∀ {m : ℕ} (f : Forecaster m) (far_out num_simulations : ℕ) (epsilon : ℚ)
      (mean_residual std_residual : Fin far_out → ℚ)
      (sampler : (Fin far_out → ℚ) → (Fin far_out → ℚ) →
        Fin num_simulations → Fin far_out → ℚ),
      f.simulate exMPC8 far_out num_simulations "B" epsilon mean_residual
          std_residual sampler = Except.error translatorIncomplete) :=
  claim_C8_amended exMPC8 "B" (by decide)

/-- C3: `LinearResidualModel.fit` solves the normal equations
`coef = (XᵀX)⁻¹ Xᵀ y` over the design matrix `[1, covariates...]` and raises
the singular-matrix error exactly when `XᵀX` is not invertible.  Stated as:
the fit fails with `"Singular matrix"` iff the Gram matrix is not invertible;
when it is invertible the returned coefficients are `(XᵀX)⁻¹ Xᵀ y`; and any
returned coefficient vector satisfies the normal equations
`(XᵀX) coef = Xᵀ y`. -/
theorem claim_C3_ols_normal_equations {m : ℕ} (M : LinearResidualModel m) :
    (M.fit = Except.error "Singular matrix" ↔ ¬ IsUnit M.gram) ∧
    (IsUnit M.gram → M.fit = Except.ok (M.gram⁻¹ *ᵥ (M.predᵀ *ᵥ M.outVec))) ∧
    (∀ c, M.fit = Except.ok c → M.gram *ᵥ c = M.predᵀ *ᵥ M.outVec) := by
  have hiff : IsUnit M.gram ↔ M.gram.det ≠ 0 := by
    rw [Matrix.isUnit_iff_isUnit_det, isUnit_iff_ne_zero]
  refine ⟨?_, ?_, ?_⟩
  · by_cases h : M.gram.det = 0
    · simp [LinearResidualModel.fit, h, hiff]
    · simp [LinearResidualModel.fit, h, hiff]
  · intro hu
    have h : M.gram.det ≠ 0 := hiff.mp hu
    rw [LinearResidualModel.fit, if_neg h]
    congr 1
    rw [Matrix.inv_def, Ring.inverse_eq_inv, Matrix.smul_mulVec_assoc]
  · intro c hc
    by_cases h : M.gram.det = 0
    · rw [LinearResidualModel.fit, if_pos h] at hc
      exact absurd hc (by simp)
    · rw [LinearResidualModel.fit, if_neg h, Except.ok.injEq] at hc
      rw [← hc, Matrix.mulVec_smul, Matrix.mulVec_mulVec, Matrix.mul_adjugate,
        Matrix.smul_mulVec_assoc, Matrix.one_mulVec, smul_smul,
        inv_mul_cancel₀ h, one_smul]

/-- The design matrix of the concrete model `exLRM` is `[[1, 0], [1, 1]]`. -/
lemma exLRM_pred : exLRM.pred = !![1, 0; 1, 1] := by
  ext i j
  fin_cases i <;> fin_cases j <;>
    simp [exLRM, exDF, LinearResidualModel.pred, DataFrame.select,
      DataFrame.setCol, DataFrame.setColVec]

/-- The Gram matrix of `exLRM` is `[[2, 1], [1, 1]]`, hence invertible. -/
lemma exLRM_gram : exLRM.gram = !![2, 1; 1, 1] := by
  rw [LinearResidualModel.gram, exLRM_pred]
  rw [show (!![1, 0; 1, 1] : Matrix (Fin 2) (Fin 2) ℚ)ᵀ = !![1, 1; 0, 1] by
    ext i j; fin_cases i <;> fin_cases j <;> simp]
  rw [Matrix.mul_fin_two]
  norm_num

/-- The Gram matrix of `exLRM` is invertible. -/
lemma exLRM_gram_isUnit : IsUnit exLRM.gram := by
  rw [Matrix.isUnit_iff_isUnit_det, isUnit_iff_ne_zero, exLRM_gram,
    Matrix.det_fin_two_of]
  norm_num

/-- The training outcomes of `exLRM` are exactly linear: `y = 1 + 2·x`. -/
lemma exLRM_outVec_linear : exLRM.outVec = exLRM.pred *ᵥ ![1, 2] := by
  rw [exLRM_pred]
  funext i
  fin_cases i <;>
    simp [exLRM, exDF, LinearResidualModel.outVec, DataFrame.setCol,
      DataFrame.setColVec, Matrix.mulVec, Matrix.dotProduct, Fin.sum_univ_two]
  norm_num

/-- Witness for C3: on the concrete two-row model `exLRM` (invertible Gram
matrix) the fit succeeds with the normal-equations solution. -/
theorem claim_C3_witness :
    exLRM.fit = Except.ok (exLRM.gram⁻¹ *ᵥ (exLRM.predᵀ *ᵥ exLRM.outVec)) :=
  (claim_C3_ols_normal_equations exLRM).2.1 exLRM_gram_isUnit

/-- C9: when the training outcome is an exactly linear function of the
covariates (`y = X β`) and the Gram matrix `XᵀX` is invertible, `predict` on
the training rows immediately after `fit` reproduces the training outcomes
exactly (zero error, hence within any tolerance). -/
theorem claim_C9_fit_predict_roundtrip {m : ℕ} (M : LinearResidualModel m)
    (β : Fin (M.covariates.length + 1) → ℚ)
    (hlin : M.outVec = M.pred *ᵥ β) (hu : IsUnit M.gram) :
    ∃ c, M.fit = Except.ok c ∧
      (({ M with coef := some c } : LinearResidualModel m).predict M.data).2 =
        Except.ok M.outVec := by
  have h : M.gram.det ≠ 0 := by
    rw [Matrix.isUnit_iff_isUnit_det, isUnit_iff_ne_zero] at hu
    exact hu
  refine ⟨_, by rw [LinearResidualModel.fit, if_neg h], ?_⟩
  have hc : M.gram.det⁻¹ • (M.gram.adjugate *ᵥ (M.predᵀ *ᵥ M.outVec)) = β := by
    rw [hlin, Matrix.mulVec_mulVec, Matrix.mulVec_mulVec, Matrix.mul_assoc,
      show M.predᵀ * M.pred = M.gram from rfl, Matrix.adjugate_mul,
      Matrix.smul_mulVec_assoc, Matrix.one_mulVec, smul_smul,
      inv_mul_cancel₀ h, one_smul]
  show Except.ok
      (M.pred *ᵥ (M.gram.det⁻¹ • (M.gram.adjugate *ᵥ (M.predᵀ *ᵥ M.outVec)))) =
    Except.ok M.outVec
  rw [hc, ← hlin]

/-- Witness for C9: on `exLRM` (outcome `y = 1 + 2·x` exactly linear,
invertible Gram matrix) fit-then-predict returns exactly the training
outcomes. -/
theorem claim_C9_witness :
    ∃ c, exLRM.fit = Except.ok c ∧
      (({ exLRM with coef := some c } : LinearResidualModel 2).predict exLRM.data).2 =
        Except.ok exLRM.outVec :=
  claim_C9_fit_predict_roundtrip exLRM ![1, 2] exLRM_outVec_linear exLRM_gram_isUnit

/-- Helper: the frame `Forecaster.predict` returns when both residual models
are present and fitted, written as the explicit chain of column mutations the
source performs (grid, intercept added in place by the mean model's
`predict`, `residual_mean` column, intercept overwritten in place by the std
model's `predict`, `residual_std` column). -/
lemma predict_eq {m : ℕ} (f : Forecaster m) (mm sm : LinearResidualModel m)
    (cm : Fin (mm.covariates.length + 1) → ℚ)
    (cs : Fin (sm.covariates.length + 1) → ℚ)
    (hm : f.mean_residual_model = some mm) (hs : f.std_residual_model = some sm)
    (hcm : mm.coef = some cm) (hcs : sm.coef = some cs)
    (far_out num_data : List ℚ) :
    f.predict far_out num_data = Except.ok
      (let d1 := (gridFrame far_out num_data).setCol "intercept" 1
       let d2 := d1.setColVec "residual_mean"
         (d1.select ("intercept" :: mm.covariates) *ᵥ cm)
       let d3 := d2.setCol "intercept" 1
       d3.setColVec "residual_std"
         (d3.select ("intercept" :: sm.covariates) *ᵥ cs)) := by
  simp only [Forecaster.predict, hm, hs, LinearResidualModel.predict, hcm, hcs]

/-- C10 (implicit frame effect): `LinearResidualModel.predict` adds an
`intercept` column (constant 1) to the frame passed to it, in place — the
caller's frame is mutated, not left unchanged — and consequently the grid
returned by `Forecaster.predict` carries an `intercept` column (constant 1)
beyond the documented `far_out`, `num_data`, `residual_mean`, `residual_std`
columns. -/
theorem claim_C10_intercept_column_mutation :
    (∀ {m n : ℕ} (M : LinearResidualModel m) (df : DataFrame n),
      "intercept" ∉ df.cols →
        (M.predict df).1.cols = df.cols ++ ["intercept"] ∧
        (∀ i, (M.predict df).1.val i "intercept" = 1) ∧
        (M.predict df).1 ≠ df) ∧
    (∀ {m : ℕ} (f : Forecaster m) (far_out num_data : List ℚ)
      (g : DataFrame (far_out.length * num_data.length)),
      f.predict far_out num_data = Except.ok g →
        g.cols = ["far_out", "num_data", "intercept", "residual_mean",
          "residual_std"] ∧
        (∀ i, g.val i "intercept" = 1)) := by
  constructor
  · intro m n M df h
    refine ⟨?_, fun i => ?_, fun heq => ?_⟩
    · simp [LinearResidualModel.predict, DataFrame.setCol, DataFrame.setColVec, h]
    · simp [LinearResidualModel.predict, DataFrame.setCol, DataFrame.setColVec]
    · have hcols := congrArg DataFrame.cols heq
      simp [LinearResidualModel.predict, DataFrame.setCol, DataFrame.setColVec,
        h] at hcols
  · intro m f far_out num_data g hg
    rcases hm : f.mean_residual_model with _ | mm
    · simp only [Forecaster.predict, hm] at hg
      exact absurd hg (by simp)
    rcases hs : f.std_residual_model with _ | sm
    · simp only [Forecaster.predict, hm, hs] at hg
      exact absurd hg (by simp)
    rcases hcm : mm.coef with _ | cm
    · simp only [Forecaster.predict, hm, hs, LinearResidualModel.predict,
        hcm] at hg
      exact absurd hg (by simp)
    rcases hcs : sm.coef with _ | cs
    · simp only [Forecaster.predict, hm, hs, LinearResidualModel.predict,
        hcm, hcs] at hg
      exact absurd hg (by simp)
    rw [predict_eq f mm sm cm cs hm hs hcm hcs, Except.ok.injEq] at hg
    subst hg
    refine ⟨?_, fun i => ?_⟩
    · simp [DataFrame.setCol, DataFrame.setColVec, gridFrame]
    · simp [DataFrame.setCol, DataFrame.setColVec]

/-- A fitted mean-residual model predicting `residual_mean = far_out`
(coefficients `[0, 1]` over the single covariate `far_out`). -/
def mmEx : LinearResidualModel 0 := ⟨emptyDF, "residual_mean", ["far_out"], some ![0, 1]⟩

/-- A fitted std-residual model predicting `residual_std = 2` (coefficients
`[2, 0]` over the single covariate `far_out`). -/
def smEx : LinearResidualModel 0 := ⟨emptyDF, "residual_std", ["far_out"], some ![2, 0]⟩

/-- A forecaster holding the two fitted models above. -/
def fEx : Forecaster 0 := ⟨some mmEx, some smEx⟩

/-- Witness for C10: on a concrete grid frame, `predict` appends the
`intercept` column and leaves the frame changed, and a concrete successful
`Forecaster.predict` grid has exactly one extra `intercept` column of ones. -/
theorem claim_C10_witness :
    "intercept" ∉ (gridFrame [(1 : ℚ), 2, 3] [10]).cols ∧
    (exLRM.predict (gridFrame [(1 : ℚ), 2, 3] [10])).1.cols =
      (gridFrame [(1 : ℚ), 2, 3] [10]).cols ++ ["intercept"] ∧
    (exLRM.predict (gridFrame [(1 : ℚ), 2, 3] [10])).1 ≠ gridFrame [(1 : ℚ), 2, 3] [10] ∧
    (∃ g : DataFrame ([(1 : ℚ), 2, 3].length * [(10 : ℚ)].length),
      fEx.predict [(1 : ℚ), 2, 3] [10] = Except.ok g ∧
      g.cols = ["far_out", "num_data", "intercept", "residual_mean",
        "residual_std"] ∧
      (∀ i, g.val i "intercept" = 1)) := by
  have hnotin : "intercept" ∉ (gridFrame [(1 : ℚ), 2, 3] [10]).cols := by decide
  have h1 := claim_C10_intercept_column_mutation.1 exLRM
    (gridFrame [(1 : ℚ), 2, 3] [10]) hnotin
  have hok := predict_eq fEx mmEx smEx ![0, 1] ![2, 0] rfl rfl rfl rfl
    [(1 : ℚ), 2, 3] [10]
  have h2 := claim_C10_intercept_column_mutation.2 fEx [(1 : ℚ), 2, 3] [10] _ hok
  exact ⟨hnotin, h1.1, h1.2.2, ⟨_, hok, h2.1, h2.2⟩⟩

/-- C1: for fitted residual models whose covariates are among the grid
columns, `Forecaster.predict` succeeds and returns a grid with exactly
`len(far_out) * len(num_data)` rows — one per element of the Cartesian
product, outer loop over `far_out` (row `i` holds
`far_out[i / len(num_data)]` and `num_data[i % len(num_data)]`) — whose
`residual_mean` column is the mean regression and whose `residual_std` column
is the std regression evaluated on that row's `[1, covariates...]` design
vector. -/
theorem claim_C1_predict_grid {m : ℕ} (f : Forecaster m)
    (mm sm : LinearResidualModel m)
    (cm : Fin (mm.covariates.length + 1) → ℚ)
    (cs : Fin (sm.covariates.length + 1) → ℚ)
    (hm : f.mean_residual_model = some mm) (hs : f.std_residual_model = some sm)
    (hcm : mm.coef = some cm) (hcs : sm.coef = some cs)
    (hmc : ∀ x ∈ mm.covariates, x = "far_out" ∨ x = "num_data")
    (hsc : ∀ x ∈ sm.covariates, x = "far_out" ∨ x = "num_data")
    (far_out num_data : List ℚ)
    (_hfo : far_out ≠ []) (_hnd : num_data ≠ []) :
    ∃ g : DataFrame (far_out.length * num_data.length),
      f.predict far_out num_data = Except.ok g ∧
      g.nrows = far_out.length * num_data.length ∧
      ∀ i : Fin (far_out.length * num_data.length),
        g.val i "far_out" = far_out.getD (i.val / num_data.length) 0 ∧
        g.val i "num_data" = num_data.getD (i.val % num_data.length) 0 ∧
        g.val i "residual_mean" =
          Fin.cons 1 (fun j => (gridFrame far_out num_data).val i
            (mm.covariates.get j)) ⬝ᵥ cm ∧
        g.val i "residual_std" =
          Fin.cons 1 (fun j => (gridFrame far_out num_data).val i
            (sm.covariates.get j)) ⬝ᵥ cs := by
  refine ⟨_, predict_eq f mm sm cm cs hm hs hcm hcs far_out num_data, rfl,
    fun i => ?_⟩
  refine ⟨?_, ?_, ?_, ?_⟩
  · simp only [DataFrame.setColVec, DataFrame.setCol, gridFrame]
    simp [List.getD_eq_getElem?_getD,
      List.getElem?_eq_getElem ((Nat.div_lt_iff_lt_mul (snd_len_pos i)).mpr i.isLt),
      List.get_eq_getElem]
  · simp only [DataFrame.setColVec, DataFrame.setCol, gridFrame]
    simp [List.getD_eq_getElem?_getD,
      List.getElem?_eq_getElem (Nat.mod_lt i.val (snd_len_pos i)),
      List.get_eq_getElem]
  · show (((gridFrame far_out num_data).setCol "intercept" 1).select
        ("intercept" :: mm.covariates) *ᵥ cm) i =
      (Fin.cons 1 fun j => (gridFrame far_out num_data).val i
        (mm.covariates.get j)) ⬝ᵥ cm
    simp only [Matrix.mulVec]
    congr 1
    funext j
    refine Fin.cases ?_ (fun j' => ?_) j
    · simp [DataFrame.setCol, DataFrame.setColVec, DataFrame.select]
    · rcases hmc _ (List.getElem_mem j'.isLt) with hx | hx <;>
        simp [DataFrame.setCol, DataFrame.setColVec, DataFrame.select,
          List.get_eq_getElem, hx]
  · show (((((gridFrame far_out num_data).setCol "intercept" 1).setColVec
        "residual_mean"
        (((gridFrame far_out num_data).setCol "intercept" 1).select
          ("intercept" :: mm.covariates) *ᵥ cm)).setCol "intercept" 1).select
        ("intercept" :: sm.covariates) *ᵥ cs) i =
      (Fin.cons 1 fun j => (gridFrame far_out num_data).val i
        (sm.covariates.get j)) ⬝ᵥ cs
    simp only [Matrix.mulVec]
    congr 1
    funext j
    refine Fin.cases ?_ (fun j' => ?_) j
    · simp [DataFrame.setCol, DataFrame.setColVec, DataFrame.select]
    · rcases hsc _ (List.getElem_mem j'.isLt) with hx | hx <;>
        simp [DataFrame.setCol, DataFrame.setColVec, DataFrame.select,
          List.get_eq_getElem, hx]

/-- Witness for C1: the concrete call of the spec's testable property —
distances `[1,2,3]`, amounts `[10]` — returns exactly 3 rows, `far_out`
equal to `1, 2, 3` in that order and `num_data = 10` in every row, with the
residual columns given by the two regressions (`residual_mean = far_out`,
`residual_std = 2` for the concrete coefficients of `fEx`). -/
theorem claim_C1_witness :
    ∃ g : DataFrame ([(1 : ℚ), 2, 3].length * [(10 : ℚ)].length),
      fEx.predict [(1 : ℚ), 2, 3] [10] = Except.ok g ∧
      g.nrows = 3 ∧
      g.val ⟨0, by norm_num⟩ "far_out" = 1 ∧
      g.val ⟨1, by norm_num⟩ "far_out" = 2 ∧
      g.val ⟨2, by norm_num⟩ "far_out" = 3 ∧
      (∀ i, g.val i "num_data" = 10) ∧
      g.val ⟨0, by norm_num⟩ "residual_mean" = 1 ∧
      g.val ⟨1, by norm_num⟩ "residual_mean" = 2 ∧
      g.val ⟨2, by norm_num⟩ "residual_mean" = 3 ∧
      (∀ i, g.val i "residual_std" = 2) := by
  obtain ⟨g, hok, hn, hv⟩ := claim_C1_predict_grid fEx mmEx smEx ![0, 1] ![2, 0]
    rfl rfl rfl rfl (by decide) (by decide) [(1 : ℚ), 2, 3] [10]
    (by decide) (by decide)
  refine ⟨g, hok, hn, ?_, ?_, ?_, fun i => ?_, ?_, ?_, ?_, fun i => ?_⟩
  · rw [(hv _).1]; decide
  · rw [(hv _).1]; decide
  · rw [(hv _).1]; decide
  · rw [(hv i).2.1]
    have : i.val % [(10 : ℚ)].length = 0 := Nat.lt_one_iff.mp (Nat.mod_lt _ (by decide))
    rw [this]; decide
  · rw [(hv _).2.2.1]
    simp [Matrix.dotProduct, Fin.sum_univ_two, gridFrame, mmEx]
  · rw [(hv _).2.2.1]
    simp [Matrix.dotProduct, Fin.sum_univ_two, gridFrame, mmEx]
  · rw [(hv _).2.2.1]
    simp [Matrix.dotProduct, Fin.sum_univ_two, gridFrame, mmEx]
  · rw [(hv i).2.2.2]
    simp [Matrix.dotProduct, Fin.sum_univ_two, gridFrame, smEx]

end CurveFit
